import Mathlib

/-!
Shallow embedding of the event-manager web application
(routes/attendee.js, routes/organiser.js, db_schema.sql, index.js).

Database state is modelled as lists of rows; each Express route handler
becomes a pure function from the database state (plus the request data and
the values the environment supplies, such as CURRENT_TIMESTAMP and the
AUTOINCREMENT id) to an outcome and the new database state.  SQLite INTEGER
columns are Int, TEXT columns are String, nullable columns are Option.
REAL money columns are modelled as Int: no claim under consideration depends
on fractional costs, and the arithmetic performed on them (multiplication
and addition) is the same.
-/

namespace EventManager

/-- Row of the organisers table (db_schema.sql). -/
structure Organiser where
  organiser_id : Nat
  name : String
  description : String
deriving DecidableEq, Repr

/-- Row of the site_settings table (db_schema.sql). -/
structure SiteSettings where
  setting_id : Nat
  site_name : String
  site_description : String
deriving DecidableEq, Repr

/-- Row of the events table (db_schema.sql).  status is the string
'draft' or 'published'; published_date is NULL until publication. -/
structure Event where
  event_id : Nat
  title : String
  description : String
  event_date : String
  full_price_tickets : Int
  full_price_cost : Int
  concession_tickets : Int
  concession_cost : Int
  status : String
  organiser_id : Option Nat
  created_date : String
  published_date : Option String
  last_modified : String
deriving DecidableEq, Repr

/-- Row of the bookings table (db_schema.sql). -/
structure Booking where
  booking_id : Nat
  event_id : Nat
  attendee_name : String
  full_price_tickets_booked : Int
  concession_tickets_booked : Int
  total_cost : Int
  booking_date : String
deriving DecidableEq, Repr

/-- The whole persistent store: the four tables of db_schema.sql.
site_settings holds at most one row (the handlers read it with LIMIT 1),
so it is an Option. -/
structure DB where
  organisers : List Organiser
  site_settings : Option SiteSettings
  events : List Event
  bookings : List Booking
deriving DecidableEq, Repr

/-! ### Small string helpers

Lean's own String.trim and String.contains are defined through well-founded
recursion on substrings, which the kernel cannot evaluate, so the JavaScript
string operations are modelled directly on the character list. -/

/-- JavaScript String.prototype.trim: remove leading and trailing
whitespace. -/
def jsTrim (s : String) : String :=
  ⟨((s.toList.dropWhile Char.isWhitespace).reverse.dropWhile
      Char.isWhitespace).reverse⟩

/-- Whether a string contains a character (JavaScript includes on a
single-character search string). -/
def strContains (s : String) (c : Char) : Bool :=
  s.toList.contains c

/-! ### JavaScript parseInt, as used at attendee.js lines 144-145

parseInt skips leading whitespace, accepts an optional sign, reads the
longest leading run of decimal digits and ignores anything after it, and
returns NaN (here: none) when no digit is read.  (The radix prefixes 0x/0X
are not modelled; no claim involves them.) -/

/-- Value of a list of decimal digit characters. -/
def digitsVal (cs : List Char) : Nat :=
  cs.foldl (fun a c => a * 10 + (c.toNat - 48)) 0

/-- parseInt on the character list that remains after leading whitespace. -/
def jsParseIntCore : List Char → Option Int
  | [] => none
  | '-' :: rest =>
    let ds := rest.takeWhile Char.isDigit
    if ds.isEmpty then none else some (-(digitsVal ds : Int))
  | '+' :: rest =>
    let ds := rest.takeWhile Char.isDigit
    if ds.isEmpty then none else some (digitsVal ds : Int)
  | c :: rest =>
    let ds := (c :: rest).takeWhile Char.isDigit
    if ds.isEmpty then none else some (digitsVal ds : Int)

/-- JavaScript parseInt(s) with NaN rendered as none. -/
def jsParseInt (s : String) : Option Int :=
  jsParseIntCore (s.toList.dropWhile Char.isWhitespace)

/-- The expression parseInt(x) || 0 of attendee.js lines 144-145, applied to
a form field that may be absent (none).  parseInt(undefined) is NaN, and
NaN || 0 is 0; a parsed 0 is falsy so 0 || 0 is again 0; any other parsed
integer (negative ones included) is truthy and kept. -/
def parseTickets (v : Option String) : Int :=
  match v with
  | none => 0
  | some s =>
    match jsParseInt s with
    | none => 0
    | some n => n

/-! ### Booking aggregates (the LEFT JOIN ... SUM ... GROUP BY queries) -/

/-- COALESCE(SUM(b.full_price_tickets_booked), 0) over the bookings of one
event: the LEFT JOIN contributes 0 when the event has no bookings, which is
the sum over the empty list. -/
def fullBooked (db : DB) (eid : Nat) : Int :=
  ((db.bookings.filter (fun b => b.event_id == eid)).map
    (fun b => b.full_price_tickets_booked)).sum

/-- COALESCE(SUM(b.concession_tickets_booked), 0) over the bookings of one
event. -/
def concessionBooked (db : DB) (eid : Nat) : Int :=
  ((db.bookings.filter (fun b => b.event_id == eid)).map
    (fun b => b.concession_tickets_booked)).sum

/-- The WHERE e.event_id = ? AND e.status = 'published' row lookup shared by
GET /attendee/event/:id and POST /attendee/book/:id. -/
def findPublishedEvent (db : DB) (eid : Nat) : Option Event :=
  db.events.find? (fun e => e.event_id == eid && e.status == "published")

/-! ### GET /attendee/event/:id (attendee.js lines 76-113) -/

/-- Outcome of the event-detail route: 404, or the rendered page carrying
the event together with full_available and concession_available. -/
inductive DetailOutcome where
  | notFound
  | page (event : Event) (full_available : Int) (concession_available : Int)
deriving DecidableEq, Repr

/-- GET /attendee/event/:id: look the event up among published events, 404
when absent, otherwise render with availability = capacity - booked. -/
def getEventDetail (db : DB) (eid : Nat) : DetailOutcome :=
  match findPublishedEvent db eid with
  | none => .notFound
  | some event =>
    .page event (event.full_price_tickets - fullBooked db eid)
      (event.concession_tickets - concessionBooked db eid)

/-! ### POST /attendee/book/:id (attendee.js lines 127-231) -/

/-- The request body of POST /attendee/book/:id.  Each field is an Option:
none models a field absent from the form submission (undefined). -/
structure BookingRequest where
  attendee_name : Option String
  full_price_tickets : Option String
  concession_tickets : Option String
deriving DecidableEq, Repr

/-- The object rendered into booking-confirmation.ejs on success. -/
structure Confirmation where
  attendee_name : String
  full_price_tickets_booked : Int
  concession_tickets_booked : Int
  total_cost : Int
deriving DecidableEq, Repr

/-- Outcome of the booking route: 400 with a message, 404, or the
confirmation page. -/
inductive BookOutcome where
  | badRequest (msg : String)
  | notFound
  | success (confirmation : Confirmation)
deriving DecidableEq, Repr

/-- POST /attendee/book/:id.  newId is the AUTOINCREMENT booking id and
bookingDate the CURRENT_TIMESTAMP default supplied by the database.
Follows attendee.js: name validation (undefined or all-whitespace name is
rejected), ticket parsing via parseInt || 0, zero-total rejection,
published-event lookup, availability check, cost computation, insert. -/
def createBooking (db : DB) (eid : Nat) (req : BookingRequest)
    (newId : Nat) (bookingDate : String) : BookOutcome × DB :=
  match req.attendee_name with
  | none => (.badRequest "Attendee name is required", db)
  | some name =>
    if jsTrim name == "" then (.badRequest "Attendee name is required", db)
    else
      let fullWanted := parseTickets req.full_price_tickets
      let concessionWanted := parseTickets req.concession_tickets
      if fullWanted + concessionWanted == 0 then
        (.badRequest "Please select at least one ticket", db)
      else
        match findPublishedEvent db eid with
        | none => (.notFound, db)
        | some event =>
          let fullAvailable := event.full_price_tickets - fullBooked db eid
          let concessionAvailable :=
            event.concession_tickets - concessionBooked db eid
          if fullWanted > fullAvailable ∨ concessionWanted > concessionAvailable
          then (.badRequest "Not enough tickets available", db)
          else
            let totalCost := fullWanted * event.full_price_cost +
              concessionWanted * event.concession_cost
            let newBooking : Booking :=
              { booking_id := newId
                event_id := eid
                attendee_name := jsTrim name
                full_price_tickets_booked := fullWanted
                concession_tickets_booked := concessionWanted
                total_cost := totalCost
                booking_date := bookingDate }
            (.success
              { attendee_name := jsTrim name
                full_price_tickets_booked := fullWanted
                concession_tickets_booked := concessionWanted
                total_cost := totalCost },
              { db with bookings := db.bookings ++ [newBooking] })

/-- The input validation of POST /attendee/book/:id (the three checks that
run before the database is consulted): a present, non-whitespace attendee
name and a nonzero ticket total. -/
def bookingInputValid (req : BookingRequest) : Prop :=
  (∃ name, req.attendee_name = some name ∧ jsTrim name ≠ "") ∧
    parseTickets req.full_price_tickets + parseTickets req.concession_tickets ≠ 0

instance (req : BookingRequest) : Decidable (bookingInputValid req) := by
  unfold bookingInputValid
  cases h : req.attendee_name with
  | none =>
    refine .isFalse ?_
    rintro ⟨⟨name, hn, _⟩, _⟩
    simp [h] at hn
  | some name =>
    by_cases ht : jsTrim name = ""
    · refine .isFalse ?_
      rintro ⟨⟨name2, hn, hne⟩, _⟩
      cases hn
      exact hne ht

    · by_cases hz : parseTickets req.full_price_tickets +
        parseTickets req.concession_tickets = 0
      · exact .isFalse (fun hv => hv.2 hz)
      · exact .isTrue ⟨⟨name, rfl, ht⟩, hz⟩

/-! ### Date helpers (organiser.js lines 22-63) -/

/-- Replace the first occurrence of a character in a list, as the
single-character form of the JavaScript String.replace does. -/
def replaceFirstChar : List Char → Char → Char → List Char
  | [], _, _ => []
  | c :: cs, a, b => if c == a then b :: cs else c :: replaceFirstChar cs a b

/-- formatDateForDatabase (organiser.js lines 22-38): falsy ('') input is
returned unchanged; a string of length 19 containing a space is already in
database format; a string containing 'T' has its first 'T' replaced by a
space and ':00' appended; anything else is returned unchanged. -/
def formatDateForDatabase (dateString : String) : String :=
  if dateString == "" then dateString
  else if strContains dateString ' ' && dateString.length == 19 then dateString
  else if strContains dateString 'T' then
    ⟨replaceFirstChar dateString.toList 'T' ' '⟩ ++ ":00"
  else dateString

/-- formatDateForInput (organiser.js lines 47-63): falsy ('') input gives
''; a string of length 16 containing 'T' is already in datetime-local
format; a string containing a space is truncated to its first 16 characters
with the first space replaced by 'T'; anything else is returned unchanged. -/
def formatDateForInput (dateString : String) : String :=
  if dateString == "" then ""
  else if strContains dateString 'T' && dateString.length == 16 then dateString
  else if strContains dateString ' ' then
    ⟨replaceFirstChar (dateString.toList.take 16) ' ' 'T'⟩
  else dateString

/-! ### The requireAuth gate (organiser.js lines 72-80) -/

/-- The session object attached to a request.  organiserId is an Option:
none models a session on which the field was never set (undefined).
isAuthenticated is a Bool: the code only ever assigns it the value true,
and an unset field reads as undefined, i.e. false here. -/
structure Session where
  isAuthenticated : Bool
  organiserId : Option Nat
deriving DecidableEq, Repr

/-- JavaScript truthiness of the organiserId field: undefined and the
number 0 are falsy, every other number is truthy. -/
def organiserIdTruthy : Option Nat → Bool
  | none => false
  | some n => !(n == 0)

/-- requireAuth (organiser.js lines 72-80): the request passes to the
protected handler exactly when req.session && req.session.isAuthenticated
&& req.session.organiserId is truthy; otherwise the request is redirected
to /organiser/login.  The request's session is none when no session object
exists. -/
def requireAuthAdmits (session : Option Session) : Bool :=
  match session with
  | none => false
  | some s => s.isAuthenticated && organiserIdTruthy s.organiserId

/-- The routes mounted in organiser.js, by handler. -/
inductive OrganiserRoute where
  | loginGet
  | loginPost
  | logout
  | dashboard
  | settingsGet
  | settingsPost
  | createEventGet
  | createEventPost
  | editEventGet
  | editEventPost
  | publishEvent
  | deleteEvent
deriving DecidableEq, Repr

/-- Which organiser routes carry the requireAuth middleware in
organiser.js: every route except login (GET and POST) and logout. -/
def routeRequiresAuth : OrganiserRoute → Bool
  | .loginGet => false
  | .loginPost => false
  | .logout => false
  | .dashboard => true
  | .settingsGet => true
  | .settingsPost => true
  | .createEventGet => true
  | .createEventPost => true
  | .editEventGet => true
  | .editEventPost => true
  | .publishEvent => true
  | .deleteEvent => true

/-! ### POST /organiser/login (organiser.js lines 10-13 and 121-159) -/

/-- The two organiser password environment variables read at organiser.js
lines 10-13.  Each is an Option String: none models an unset variable
(process.env gives undefined). -/
structure EnvConfig where
  organiserPassword1 : Option String
  organiserPassword2 : Option String
deriving DecidableEq, Repr

/-- The ORGANISER_PASSWORDS lookup: the object literal has keys 1 and 2
only, so every other organiser id reads undefined (none). -/
def organiserPasswords (env : EnvConfig) (id : Nat) : Option String :=
  if id == 1 then env.organiserPassword1
  else if id == 2 then env.organiserPassword2
  else none

/-- JavaScript strict equality between two values that are each either a
string or undefined: two strings compare by content, undefined === undefined
is true, and a string never equals undefined. -/
def jsStrictEqOptStr : Option String → Option String → Bool
  | some a, some b => a == b
  | none, none => true
  | some _, none => false
  | none, some _ => false

/-- Outcome of POST /organiser/login. -/
inductive LoginOutcome where
  | invalidOrganiser
  | incorrectPassword
  | loggedIn (organiserId : Nat) (organiserName : String)
deriving DecidableEq, Repr

/-- POST /organiser/login (organiser.js lines 121-159): look the organiser
up by id; unknown id re-renders with an invalid-organiser error; otherwise
the submitted password (possibly absent, i.e. none) is compared by strict
equality with ORGANISER_PASSWORDS[id] (possibly undefined); on equality the
session is established with the organiser's id and name, otherwise the
login page is re-rendered with an incorrect-password error. -/
def loginPost (env : EnvConfig) (db : DB) (organiser_id : Nat)
    (password : Option String) : LoginOutcome :=
  match db.organisers.find? (fun o => o.organiser_id == organiser_id) with
  | none => .invalidOrganiser
  | some organiser =>
    if jsStrictEqOptStr password (organiserPasswords env organiser_id) then
      .loggedIn organiser.organiser_id organiser.name
    else .incorrectPassword

/-! ### Site-settings reads and their fallbacks -/

/-- The settings fields a template receives (the fallback object literals
carry no setting_id). -/
structure DisplaySettings where
  site_name : String
  site_description : String
deriving DecidableEq, Repr

/-- SELECT * FROM site_settings LIMIT 1: the singleton row, or none. -/
def readSettingsRow (db : DB) : Option SiteSettings :=
  db.site_settings

/-- The settings object rendered into attendee-home.ejs (attendee.js lines
55-60): the row, or the fallback \x7bsite_name: 'Event Manager',
site_description: 'Book your events'\x7d. -/
def attendeeHomeSettings (row : Option SiteSettings) : DisplaySettings :=
  match row with
  | some s => ⟨s.site_name, s.site_description⟩
  | none => ⟨"Event Manager", "Book your events"⟩

/-- The settings object rendered into organiser-home.ejs (organiser.js
lines 237-246): the row, or the fallback \x7bsite_name: 'Event Manager',
site_description: 'Manage your events'\x7d. -/
def organiserDashboardSettings (row : Option SiteSettings) : DisplaySettings :=
  match row with
  | some s => ⟨s.site_name, s.site_description⟩
  | none => ⟨"Event Manager", "Manage your events"⟩

/-- The settings object rendered into site-settings.ejs (organiser.js lines
273-278): the row, or the fallback \x7bsite_name: '', site_description: ''\x7d. -/
def settingsFormSettings (row : Option SiteSettings) : DisplaySettings :=
  match row with
  | some s => ⟨s.site_name, s.site_description⟩
  | none => ⟨"", ""⟩

/-! ### GET and POST /organiser/edit-event/:id (organiser.js 393-462) -/

/-- The form fields of the create-event and edit-event POST bodies.  Text
fields are Option String (none for an absent field); the four numeric
fields arrive as form strings and are stored through SQLite's INTEGER
affinity, modelled here as the integer value with none for an absent or
empty (falsy) field, to which the JavaScript expression field || 0
gives the value 0. -/
structure EventFields where
  title : Option String
  description : Option String
  event_date : Option String
  full_price_tickets : Option Int
  full_price_cost : Option Int
  concession_tickets : Option Int
  concession_cost : Option Int
deriving DecidableEq, Repr

/-- JavaScript truthiness of a form text field: undefined and the empty
string are falsy, every other string is truthy. -/
def strTruthy : Option String → Bool
  | none => false
  | some s => !(s == "")

/-- Outcome of the edit-event routes. -/
inductive EditOutcome where
  | badRequest (msg : String)
  | notFound
  | page (event : Event)
  | redirect (location : String)
deriving DecidableEq, Repr

/-- GET /organiser/edit-event/:id (organiser.js lines 393-414): look the
event up by id alone (any status); 404 when absent; otherwise render the
edit form with the event, its event_date converted for the datetime-local
input when truthy. -/
def getEditEvent (db : DB) (eid : Nat) : EditOutcome :=
  match db.events.find? (fun e => e.event_id == eid) with
  | none => .notFound
  | some event =>
    .page (if event.event_date == "" then event
      else { event with event_date := formatDateForInput event.event_date })

/-- POST /organiser/edit-event/:id (organiser.js lines 424-462): reject
with 400 when title, description or event_date is falsy; otherwise run the
UPDATE, which rewrites every row whose event_id matches (and no row when
none matches), setting last_modified to CURRENT_TIMESTAMP (the parameter
now), and redirect to /organiser?updated=true.  The handler never checks
whether any row was updated. -/
def postEditEvent (db : DB) (eid : Nat) (f : EventFields) (now : String) :
    EditOutcome × DB :=
  if !(strTruthy f.title) || !(strTruthy f.description) ||
      !(strTruthy f.event_date) then
    (.badRequest "Title, description, and event date are required", db)
  else
    let formattedDate := formatDateForDatabase (f.event_date.getD "")
    (.redirect "/organiser?updated=true",
      { db with events := db.events.map (fun e =>
          if e.event_id == eid then
            { e with
              title := f.title.getD ""
              description := f.description.getD ""
              event_date := formattedDate
              full_price_tickets := f.full_price_tickets.getD 0
              full_price_cost := f.full_price_cost.getD 0
              concession_tickets := f.concession_tickets.getD 0
              concession_cost := f.concession_cost.getD 0
              last_modified := now }
          else e) })

/-! ### POST /organiser/publish-event/:id (organiser.js lines 472-490) -/

/-- The UPDATE of the publish route: SET status = 'published',
published_date = CURRENT_TIMESTAMP WHERE event_id = ? AND status = 'draft'.
now is the CURRENT_TIMESTAMP value.  Rows not matching both conditions are
untouched. -/
def publishEvent (db : DB) (eid : Nat) (now : String) : DB :=
  { db with events := db.events.map (fun e =>
      if e.event_id == eid && e.status == "draft" then
        { e with status := "published", published_date := some now }
      else e) }

/-- Outcome of the publish and delete routes (they always redirect when the
database call succeeds). -/
inductive AdminOutcome where
  | redirect (location : String)
deriving DecidableEq, Repr

/-- POST /organiser/publish-event/:id: run the guarded UPDATE, then
redirect to the dashboard unconditionally. -/
def publishRoute (db : DB) (eid : Nat) (now : String) : AdminOutcome × DB :=
  (.redirect "/organiser", publishEvent db eid now)

/-! ### POST /organiser/delete-event/:id (organiser.js lines 500-514) and
the ON DELETE CASCADE of bookings.event_id (db_schema.sql) -/

/-- DELETE FROM events WHERE event_id = ?, with the foreign-key cascade
removing every booking whose event_id references the deleted event. -/
def deleteEvent (db : DB) (eid : Nat) : DB :=
  { db with
    events := db.events.filter (fun e => !(e.event_id == eid))
    bookings := db.bookings.filter (fun b => !(b.event_id == eid)) }

/-- POST /organiser/delete-event/:id: run the DELETE (with cascade), then
redirect to the dashboard unconditionally. -/
def deleteRoute (db : DB) (eid : Nat) : AdminOutcome × DB :=
  (.redirect "/organiser", deleteEvent db eid)

/-! ### Sample rows (the seed data of db_schema.sql), used as concrete
states in witnesses.  Timestamp defaults are written out as fixed strings. -/

/-- Seed organiser 1 (db_schema.sql). -/
def organiser1 : Organiser :=
  ⟨1, "Sarah Johnson", "Lead Yoga Instructor and Studio Manager"⟩

/-- Seed organiser 2 (db_schema.sql). -/
def organiser2 : Organiser :=
  ⟨2, "Mike Chen", "Assistant Instructor and Event Coordinator"⟩

/-- Seed event 1 (db_schema.sql): published, capacities 20/10. -/
def event1 : Event :=
  ⟨1, "Yoga Kids Workshop", "Beginner friendly kids yoga session",
    "2025-07-15 10:00:00", 20, 25, 10, 15, "published", some 1,
    "2025-06-01 00:00:00", some "2025-06-01 00:00:00", "2025-06-01 00:00:00"⟩

/-- Seed event 2 (db_schema.sql): draft, capacities 30/15. -/
def event2 : Event :=
  ⟨2, "Yoga Adults Workshop", "Beginner friendly adults yoga session",
    "2025-07-20 14:00:00", 30, 15, 15, 10, "draft", some 2,
    "2025-06-01 00:00:00", none, "2025-06-01 00:00:00"⟩

/-- Seed event 3 (db_schema.sql): published, capacities 15/5. -/
def event3 : Event :=
  ⟨3, "Puppy Yoga", "Yoga with cute puppies",
    "2025-07-10 09:00:00", 15, 40, 5, 30, "published", some 1,
    "2025-06-01 00:00:00", some "2025-06-01 00:00:00", "2025-06-01 00:00:00"⟩

/-- Seed booking 1 (db_schema.sql): 2 full and 1 concession for event 1. -/
def booking1 : Booking :=
  ⟨1, 1, "Alice Benson", 2, 1, 65, "2025-06-02 00:00:00"⟩

/-- Seed booking 2 (db_schema.sql): 1 full for event 3. -/
def booking2 : Booking :=
  ⟨2, 3, "Bob Carrey", 1, 0, 40, "2025-06-02 00:00:00"⟩

/-- The database as built by db_schema.sql. -/
def sampleDb : DB :=
  ⟨[organiser1, organiser2],
    some ⟨1, "Fun Yoga", "All kinds of yoga for all ages"⟩,
    [event1, event2, event3],
    [booking1, booking2]⟩

/-- An organiser row with an id outside the keys of ORGANISER_PASSWORDS,
added at setup time (the schema allows any number of organisers). -/
def organiser3 : Organiser := ⟨3, "Priya Patel", "Guest Instructor"⟩

/-- sampleDb with the extra organiser whose id has no configured password. -/
def sampleDb3 : DB :=
  { sampleDb with organisers := sampleDb.organisers ++ [organiser3] }

/-- A fully populated edit-event form submission. -/
def sampleEditFields : EventFields :=
  ⟨some "Yoga Adults Workshop", some "Beginner friendly adults yoga session",
    some "2025-07-20T14:00", some 30, some 15, some 15, some 10⟩

/-! ### Helper lemmas on lists -/

/-- Mapping a function that fixes every element of a list is the
identity. -/
theorem list_map_eq_self {α : Type} (l : List α) (f : α → α)
    (h : ∀ x ∈ l, f x = x) : l.map f = l := by
  induction l with
  | nil => rfl
  | cons a t ih =>
    simp only [List.map_cons, h a (List.mem_cons_self a t),
      ih (fun x hx => h x (List.mem_cons_of_mem a hx))]

/-- Appending one booking for the event adds its full-price count to the
aggregate. -/
theorem fullBooked_append (db : DB) (eid : Nat) (b : Booking)
    (hb : b.event_id = eid) :
    fullBooked { db with bookings := db.bookings ++ [b] } eid =
      fullBooked db eid + b.full_price_tickets_booked := by
  simp [fullBooked, List.filter_append, hb]

/-- Appending one booking for the event adds its concession count to the
aggregate. -/
theorem concessionBooked_append (db : DB) (eid : Nat) (b : Booking)
    (hb : b.event_id = eid) :
    concessionBooked { db with bookings := db.bookings ++ [b] } eid =
      concessionBooked db eid + b.concession_tickets_booked := by
  simp [concessionBooked, List.filter_append, hb]

/-- Characterization of a successful run of the booking handler: the name
was present, a published event was found, the availability check passed,
and the confirmation and the inserted row carry the trimmed name, the
parsed ticket counts and the computed cost. -/
theorem createBooking_success_elim (db : DB) (eid : Nat) (req : BookingRequest)
    (newId : Nat) (bd : String) (c : Confirmation) (db' : DB)
    (h : createBooking db eid req newId bd = (.success c, db')) :
    ∃ name event,
      req.attendee_name = some name ∧
      jsTrim name ≠ "" ∧
      findPublishedEvent db eid = some event ∧
      parseTickets req.full_price_tickets ≤
        event.full_price_tickets - fullBooked db eid ∧
      parseTickets req.concession_tickets ≤
        event.concession_tickets - concessionBooked db eid ∧
      c = ⟨jsTrim name, parseTickets req.full_price_tickets,
        parseTickets req.concession_tickets,
        parseTickets req.full_price_tickets * event.full_price_cost +
          parseTickets req.concession_tickets * event.concession_cost⟩ ∧
      db' = { db with bookings := db.bookings ++
        [⟨newId, eid, jsTrim name, parseTickets req.full_price_tickets,
          parseTickets req.concession_tickets,
          parseTickets req.full_price_tickets * event.full_price_cost +
            parseTickets req.concession_tickets * event.concession_cost,
          bd⟩] } := by
  unfold createBooking at h
  split at h
  · simp at h
  next name hname =>
    split at h
    next htrim =>
      simp at h
    next htrim =>
      split at h
      next hev =>
        dsimp only at h
        split at h <;> simp at h
      next event hev =>
        dsimp only at h
        split at h
        next hzero => simp at h
        next hzero =>
          split at h
          next hins => simp at h
          next hins =>
            rw [Prod.mk.injEq] at h
            obtain ⟨hc, hdb⟩ := h
            rw [BookOutcome.success.injEq] at hc
            push_neg at hins
            refine ⟨name, event, hname, ?_, hev, hins.1, hins.2, hc.symm, hdb.symm⟩
            intro hbad
            exact htrim (by simp [hbad])

/-- When no published event with the id exists, the booking handler leaves
the store unchanged, never succeeds, and answers 404 whenever the input
validation that precedes the lookup passes. -/
theorem createBooking_no_published (db : DB) (eid : Nat) (req : BookingRequest)
    (newId : Nat) (bd : String) (h : findPublishedEvent db eid = none) :
    (createBooking db eid req newId bd).2 = db ∧
    (∀ c, (createBooking db eid req newId bd).1 ≠ .success c) ∧
    (bookingInputValid req → (createBooking db eid req newId bd).1 = .notFound) := by
  have key : ∀ out db2, createBooking db eid req newId bd = (out, db2) →
      db2 = db ∧ (∀ c, out ≠ .success c) ∧
      (bookingInputValid req → out = .notFound) := by
    intro out db2 hcb
    unfold createBooking at hcb
    split at hcb
    next hname =>
      rw [Prod.mk.injEq] at hcb
      obtain ⟨ho, hd⟩ := hcb
      refine ⟨hd.symm, ?_, ?_⟩
      · intro c hc
        rw [← ho] at hc
        cases hc
      · intro hv
        obtain ⟨⟨n, hn, _⟩, _⟩ := hv
        rw [hname] at hn
        cases hn
    next name hname =>
      split at hcb
      next htrim =>
        rw [Prod.mk.injEq] at hcb
        obtain ⟨ho, hd⟩ := hcb
        refine ⟨hd.symm, ?_, ?_⟩
        · intro c hc
          rw [← ho] at hc
          cases hc
        · intro hv
          obtain ⟨⟨n, hn, hne⟩, _⟩ := hv
          rw [hname] at hn
          cases hn
          exact absurd (by simpa using htrim) hne
      next htrim =>
        split at hcb
        next hev =>
          dsimp only at hcb
          split at hcb
          next hzero =>
            rw [Prod.mk.injEq] at hcb
            obtain ⟨ho, hd⟩ := hcb
            refine ⟨hd.symm, ?_, ?_⟩
            · intro c hc
              rw [← ho] at hc
              cases hc
            · intro hv
              exact absurd (by simpa using hzero) hv.2
          next hzero =>
            rw [Prod.mk.injEq] at hcb
            obtain ⟨ho, hd⟩ := hcb
            refine ⟨hd.symm, ?_, ?_⟩
            · intro c hc
              rw [← ho] at hc
              cases hc
            · intro hv
              exact ho.symm
        next event hev =>
          rw [h] at hev
          cases hev
  exact key (createBooking db eid req newId bd).1
    (createBooking db eid req newId bd).2 Prod.mk.eta.symm

/-- Claim C1: after every sequentially executed successful createBooking
(POST /attendee/book/:id), the derived availability of each ticket type of
the booked event is still non-negative: the handler rejects any request
wanting more than the currently available count of either type before
inserting, so capacity minus the new booked sum stays at or above zero. -/
theorem claim1_availability_nonneg_after_insert (db : DB) (eid : Nat)
    (req : BookingRequest) (newId : Nat) (bd : String) (c : Confirmation)
    (db' : DB) (h : createBooking db eid req newId bd = (.success c, db')) :
    ∃ e, findPublishedEvent db' eid = some e ∧
      0 ≤ e.full_price_tickets - fullBooked db' eid ∧
      0 ≤ e.concession_tickets - concessionBooked db' eid := by
  obtain ⟨name, event, hname, htrim, hev, hfull, hcon, hc, hdb⟩ :=
    createBooking_success_elim db eid req newId bd c db' h
  subst hdb
  refine ⟨event, hev, ?_, ?_⟩
  · rw [fullBooked_append db eid _ rfl]
    dsimp only
    omega
  · rw [concessionBooked_append db eid _ rfl]
    dsimp only
    omega

/-- Witness for claim C1: booking 2 full-price and 1 concession ticket of
the Puppy Yoga event (capacities 15/5, booked 1/0) succeeds and leaves both
availabilities non-negative. -/
theorem claim1_witness :
    ∃ e, findPublishedEvent
        (createBooking sampleDb 3 ⟨some "Cara", some "2", some "1"⟩ 3
          "2025-07-01 00:00:00").2 3 = some e ∧
      0 ≤ e.full_price_tickets - fullBooked
        (createBooking sampleDb 3 ⟨some "Cara", some "2", some "1"⟩ 3
          "2025-07-01 00:00:00").2 3 ∧
      0 ≤ e.concession_tickets - concessionBooked
        (createBooking sampleDb 3 ⟨some "Cara", some "2", some "1"⟩ 3
          "2025-07-01 00:00:00").2 3 :=
  claim1_availability_nonneg_after_insert sampleDb 3
    ⟨some "Cara", some "2", some "1"⟩ 3 "2025-07-01 00:00:00"
    ⟨"Cara", 2, 1, 110⟩ _ (by decide)

/-- Counterexample for claim C2: parseInt('-5') || 0 is -5, so a request
submitting '-5' full-price tickets reaches the availability check and the
insert with fullWanted = -5 < 0; the booking row is inserted with a
negative full-price count (and here a negative total cost). -/
theorem claim2_counterexample :
    parseTickets (some "-5") = -5 ∧ ((-5 : Int) < 0) ∧
    (createBooking sampleDb 3 ⟨some "Dana", some "-5", some "3"⟩ 4
      "2025-07-01 00:00:00").1 = .success ⟨"Dana", -5, 3, -110⟩ ∧
    (createBooking sampleDb 3 ⟨some "Dana", some "-5", some "3"⟩ 4
      "2025-07-01 00:00:00").2.bookings =
      sampleDb.bookings ++ [⟨4, 3, "Dana", -5, 3, -110, "2025-07-01 00:00:00"⟩] := by
  decide

/-- Claim C2, amended: createBooking parses the submitted ticket counts
with parseInt, and any unparsable or missing value defaults to 0; a
successfully parsed integer, including a negative one, is used as-is, and
the confirmed booking carries exactly those parsed values (so fullWanted
and concessionWanted are not guaranteed non-negative). -/
theorem claim2_ticket_parsing :
    parseTickets none = 0 ∧
    (∀ s, jsParseInt s = none → parseTickets (some s) = 0) ∧
    (∀ s n, jsParseInt s = some n → parseTickets (some s) = n) ∧
    (∀ db eid req newId bd c db',
      createBooking db eid req newId bd = (.success c, db') →
      c.full_price_tickets_booked = parseTickets req.full_price_tickets ∧
      c.concession_tickets_booked = parseTickets req.concession_tickets) := by
  refine ⟨rfl, ?_, ?_, ?_⟩
  · intro s hs
    simp [parseTickets, hs]
  · intro s n hs
    simp [parseTickets, hs]
  · intro db eid req newId bd c db' h
    obtain ⟨name, event, _, _, _, _, _, hc, _⟩ :=
      createBooking_success_elim db eid req newId bd c db' h
    subst hc
    exact ⟨rfl, rfl⟩

/-- Witness for claim C2 (amended): an unparsable count defaults to 0 and a
parsable negative count is kept. -/
theorem claim2_witness :
    parseTickets (some "abc") = 0 ∧ parseTickets (some "-12") = -12 :=
  ⟨claim2_ticket_parsing.2.1 "abc" (by decide),
    claim2_ticket_parsing.2.2.1 "-12" (-12) (by decide)⟩

/-- Counterexample for claim C3: event 2 of the seed database is a draft,
yet a booking request against it with an empty attendee name fails with 400
(InvalidInput), not with 404: the input validation runs before the
published-event lookup. -/
theorem claim3_counterexample :
    (sampleDb.events.find? (fun e => e.event_id == 2)).map Event.status =
      some "draft" ∧
    (createBooking sampleDb 2 ⟨some "", some "1", some "0"⟩ 5
      "2025-07-01 00:00:00").1 = .badRequest "Attendee name is required" ∧
    (createBooking sampleDb 2 ⟨some "", some "1", some "0"⟩ 5
      "2025-07-01 00:00:00").1 ≠ .notFound := by
  decide

/-- Claim C3, amended: when no published event with the id exists, the
event-detail operation fails with 404; the booking operation never exposes
the event or inserts anything (the store is unchanged and success is
impossible), and it fails with 404 whenever the preceding input validation
passes (otherwise it fails 400 on the input).  Both operations succeed only
when a published event with the id exists. -/
theorem claim3_nonpublished_hidden (db : DB) (eid : Nat) (req : BookingRequest)
    (newId : Nat) (bd : String) :
    (findPublishedEvent db eid = none →
      getEventDetail db eid = .notFound ∧
      (createBooking db eid req newId bd).2 = db ∧
      (∀ c, (createBooking db eid req newId bd).1 ≠ .success c) ∧
      (bookingInputValid req → (createBooking db eid req newId bd).1 = .notFound)) ∧
    (∀ c db', createBooking db eid req newId bd = (.success c, db') →
      ∃ e, findPublishedEvent db eid = some e) ∧
    (∀ e fa ca, getEventDetail db eid = .page e fa ca →
      findPublishedEvent db eid = some e) := by
  refine ⟨?_, ?_, ?_⟩
  · intro h
    obtain ⟨h1, h2, h3⟩ := createBooking_no_published db eid req newId bd h
    refine ⟨?_, h1, h2, h3⟩
    unfold getEventDetail
    rw [h]
  · intro c db' h
    obtain ⟨name, event, _, _, hev, _⟩ :=
      createBooking_success_elim db eid req newId bd c db' h
    exact ⟨event, hev⟩
  · intro e fa ca h
    unfold getEventDetail at h
    split at h
    · cases h
    next ev hev =>
      cases h
      exact hev

/-- Witness for claim C3 (amended): no event with id 99 exists in the seed
database; the detail page answers 404 and a valid booking request against
id 99 answers 404 and leaves the store unchanged. -/
theorem claim3_witness :
    getEventDetail sampleDb 99 = .notFound ∧
    (createBooking sampleDb 99 ⟨some "Bob", some "1", none⟩ 6
      "2025-07-01 00:00:00").2 = sampleDb ∧
    (createBooking sampleDb 99 ⟨some "Bob", some "1", none⟩ 6
      "2025-07-01 00:00:00").1 = .notFound :=
  have H := claim3_nonpublished_hidden sampleDb 99 ⟨some "Bob", some "1", none⟩ 6
    "2025-07-01 00:00:00"
  have h := H.1 (by decide)
  ⟨h.1, h.2.1, h.2.2.2 (by decide)⟩

/-- Claim C4: POST /organiser/publish-event/:id sets status to 'published'
and published_date to a non-null timestamp exactly for events whose current
status is 'draft'; when the event is already published or absent the UPDATE
matches no row and the store is unchanged (in particular no published_date
is overwritten); the route redirects to the dashboard in every case. -/
theorem claim4_publish_spec (db : DB) (eid : Nat) (now : String) :
    (publishRoute db eid now).1 = .redirect "/organiser" ∧
    (publishRoute db eid now).2 = publishEvent db eid now ∧
    (∀ e, e ∈ db.events → e.event_id = eid → e.status = "draft" →
      { e with status := "published", published_date := some now } ∈
        (publishEvent db eid now).events) ∧
    (∀ e, e ∈ db.events → (e.event_id ≠ eid ∨ e.status ≠ "draft") →
      e ∈ (publishEvent db eid now).events) ∧
    ((∀ e, e ∈ db.events → e.event_id = eid → e.status ≠ "draft") →
      publishEvent db eid now = db) := by
  refine ⟨rfl, rfl, ?_, ?_, ?_⟩
  · intro e he h1 h2
    have hfe : (fun e : Event =>
        if e.event_id == eid && e.status == "draft" then
          { e with status := "published", published_date := some now }
        else e) e =
        { e with status := "published", published_date := some now } := by
      simp [h1, h2]
    unfold publishEvent
    rw [← hfe]
    exact List.mem_map_of_mem _ he
  · intro e he h
    have hfe : (fun e : Event =>
        if e.event_id == eid && e.status == "draft" then
          { e with status := "published", published_date := some now }
        else e) e = e := by
      rcases h with h | h <;> simp [h]
    unfold publishEvent
    rw [← hfe]
    exact List.mem_map_of_mem _ he
  · intro hall
    have hm : db.events.map (fun e : Event =>
        if e.event_id == eid && e.status == "draft" then
          { e with status := "published", published_date := some now }
        else e) = db.events := by
      refine list_map_eq_self _ _ (fun e he => ?_)
      by_cases h1 : e.event_id = eid
      · simp [h1, hall e he h1]
      · simp [h1]
    unfold publishEvent
    rw [hm]

/-- Witness for claim C4: publishing the draft event 2 of the seed database
yields the published row with the given timestamp; publishing the
already-published event 1 leaves the database unchanged; the publish route
on a missing id still redirects to the dashboard. -/
theorem claim4_witness :
    ({ event2 with
        status := "published"
        published_date := some "2025-07-02 00:00:00" } ∈
      (publishEvent sampleDb 2 "2025-07-02 00:00:00").events) ∧
    publishEvent sampleDb 1 "2025-07-02 00:00:00" = sampleDb ∧
    (publishRoute sampleDb 99 "2025-07-02 00:00:00").1 = .redirect "/organiser" :=
  ⟨(claim4_publish_spec sampleDb 2 "2025-07-02 00:00:00").2.2.1 event2
      (by decide) (by decide) (by decide),
    (claim4_publish_spec sampleDb 1 "2025-07-02 00:00:00").2.2.2.2 (by decide),
    (claim4_publish_spec sampleDb 99 "2025-07-02 00:00:00").1⟩

/-- Claim C5: POST /organiser/delete-event/:id removes the event row with
the given id and, through the ON DELETE CASCADE foreign key, exactly the
bookings referencing it; every other event and every booking of another
event survives, and the other tables are untouched. -/
theorem claim5_delete_cascade (db : DB) (eid : Nat) :
    (deleteRoute db eid).1 = .redirect "/organiser" ∧
    (deleteRoute db eid).2 = deleteEvent db eid ∧
    (∀ e, e ∈ (deleteEvent db eid).events ↔
      e ∈ db.events ∧ e.event_id ≠ eid) ∧
    (∀ b, b ∈ (deleteEvent db eid).bookings ↔
      b ∈ db.bookings ∧ b.event_id ≠ eid) ∧
    (deleteEvent db eid).organisers = db.organisers ∧
    (deleteEvent db eid).site_settings = db.site_settings := by
  refine ⟨rfl, rfl, ?_, ?_, rfl, rfl⟩
  · intro e
    simp [deleteEvent, List.mem_filter]
  · intro b
    simp [deleteEvent, List.mem_filter]

/-- Witness for claim C5: deleting event 3 keeps booking 1 (which belongs
to event 1), removes the event-3 row, and redirects to the dashboard. -/
theorem claim5_witness :
    booking1 ∈ (deleteEvent sampleDb 3).bookings ∧
    event3 ∉ (deleteEvent sampleDb 3).events ∧
    (deleteRoute sampleDb 3).1 = .redirect "/organiser" :=
  ⟨((claim5_delete_cascade sampleDb 3).2.2.2.1 booking1).mpr
      ⟨by decide, by decide⟩,
    fun hmem => absurd
      (((claim5_delete_cascade sampleDb 3).2.2.1 event3).mp hmem).2
      (by decide),
    (claim5_delete_cascade sampleDb 3).1⟩

/-- Counterexample for claim C6: no event with id 99 exists in the seed
database, yet POST /organiser/edit-event/99 with fully valid fields does
not answer 404: the UPDATE matches no row and the handler redirects to the
dashboard with the success flag (the store is unchanged). -/
theorem claim6_counterexample :
    sampleDb.events.find? (fun e => e.event_id == 99) = none ∧
    (postEditEvent sampleDb 99 sampleEditFields "2025-07-02 00:00:00").1 =
      .redirect "/organiser?updated=true" ∧
    (postEditEvent sampleDb 99 sampleEditFields "2025-07-02 00:00:00").1 ≠
      .notFound ∧
    (postEditEvent sampleDb 99 sampleEditFields "2025-07-02 00:00:00").2 =
      sampleDb := by
  decide

/-- Claim C6, amended: for an id with no event row, GET
/organiser/edit-event/:id answers 404 and POST /organiser/edit-event/:id
leaves the store unchanged, but the POST with valid fields does not answer
404: it redirects to the dashboard with the success flag as if the update
had happened. -/
theorem claim6_edit_missing (db : DB) (eid : Nat) (f : EventFields)
    (now : String)
    (h : db.events.find? (fun e => e.event_id == eid) = none) :
    getEditEvent db eid = .notFound ∧
    (postEditEvent db eid f now).2 = db ∧
    (strTruthy f.title → strTruthy f.description → strTruthy f.event_date →
      (postEditEvent db eid f now).1 = .redirect "/organiser?updated=true") := by
  have hall : ∀ e ∈ db.events, (e.event_id == eid) = false := by
    intro e he
    simpa using List.find?_eq_none.mp h e he
  refine ⟨?_, ?_, ?_⟩
  · unfold getEditEvent
    rw [h]
  · unfold postEditEvent
    by_cases hcond : (!(strTruthy f.title) || !(strTruthy f.description) ||
        !(strTruthy f.event_date)) = true
    · rw [if_pos hcond]
    · rw [if_neg hcond]
      dsimp only
      have hm : db.events.map (fun e : Event =>
          if e.event_id == eid then
            { e with
              title := f.title.getD ""
              description := f.description.getD ""
              event_date := formatDateForDatabase (f.event_date.getD "")
              full_price_tickets := f.full_price_tickets.getD 0
              full_price_cost := f.full_price_cost.getD 0
              concession_tickets := f.concession_tickets.getD 0
              concession_cost := f.concession_cost.getD 0
              last_modified := now }
          else e) = db.events := by
        refine list_map_eq_self _ _ (fun e he => ?_)
        simp [hall e he]
      rw [hm]
  · intro h1 h2 h3
    unfold postEditEvent
    have hcond : (!(strTruthy f.title) || !(strTruthy f.description) ||
        !(strTruthy f.event_date)) = false := by
      simp [h1, h2, h3]
    simp [hcond]

/-- Witness for claim C6 (amended): editing the missing id 99 of the seed
database answers 404 on GET, changes nothing on POST, and the POST with
valid fields redirects with the success flag. -/
theorem claim6_witness :
    getEditEvent sampleDb 99 = .notFound ∧
    (postEditEvent sampleDb 99 sampleEditFields "2025-07-02 00:00:00").2 =
      sampleDb ∧
    (postEditEvent sampleDb 99 sampleEditFields "2025-07-02 00:00:00").1 =
      .redirect "/organiser?updated=true" :=
  have H := claim6_edit_missing sampleDb 99 sampleEditFields
    "2025-07-02 00:00:00" (by decide)
  ⟨H.1, H.2.1, H.2.2 (by decide) (by decide) (by decide)⟩

/-- Counterexample for claim C7: with no site_settings row, the three pages
do not resolve to one shared default object: the organiser dashboard falls
back to 'Manage your events' and the settings form to empty strings, while
only the attendee home uses \x7bEvent Manager, Book your events\x7d. -/
theorem claim7_counterexample :
    organiserDashboardSettings none ≠ attendeeHomeSettings none ∧
    settingsFormSettings none ≠ attendeeHomeSettings none ∧
    attendeeHomeSettings none = ⟨"Event Manager", "Book your events"⟩ := by
  decide

/-- Claim C7, amended: when the site_settings row is absent, each page has
its own hard-coded fallback: the attendee home renders \x7bEvent Manager, Book
your events\x7d, the organiser dashboard \x7bEvent Manager, Manage your events\x7d,
and the settings form two empty strings; when the row exists, all
three pages render the same stored row. -/
theorem claim7_settings_fallbacks :
    attendeeHomeSettings none = ⟨"Event Manager", "Book your events"⟩ ∧
    organiserDashboardSettings none = ⟨"Event Manager", "Manage your events"⟩ ∧
    settingsFormSettings none = ⟨"", ""⟩ ∧
    (∀ s, attendeeHomeSettings (some s) = ⟨s.site_name, s.site_description⟩ ∧
      organiserDashboardSettings (some s) = attendeeHomeSettings (some s) ∧
      settingsFormSettings (some s) = attendeeHomeSettings (some s)) :=
  ⟨rfl, rfl, rfl, fun _ => ⟨rfl, rfl, rfl⟩⟩

/-- Counterexample for claim C8: a session with isAuthenticated == true but
no organiserId set is rejected by requireAuth, so the gate does not admit
all requests whose session has isAuthenticated == true. -/
theorem claim8_counterexample :
    (Session.mk true none).isAuthenticated = true ∧
    requireAuthAdmits (some (Session.mk true none)) = false := by
  decide

/-- Claim C8, amended: requireAuth admits exactly the requests whose
session exists, has isAuthenticated true, and has a truthy (nonzero,
present) organiserId; every organiser-privileged route (dashboard,
settings, create/edit/publish/delete event) carries the gate. -/
theorem claim8_requireAuth :
    (∀ sess : Option Session, requireAuthAdmits sess = true ↔
      ∃ s, sess = some s ∧ s.isAuthenticated = true ∧
        ∃ n, s.organiserId = some n ∧ n ≠ 0) ∧
    routeRequiresAuth .dashboard = true ∧
    routeRequiresAuth .settingsGet = true ∧
    routeRequiresAuth .settingsPost = true ∧
    routeRequiresAuth .createEventGet = true ∧
    routeRequiresAuth .createEventPost = true ∧
    routeRequiresAuth .editEventGet = true ∧
    routeRequiresAuth .editEventPost = true ∧
    routeRequiresAuth .publishEvent = true ∧
    routeRequiresAuth .deleteEvent = true := by
  refine ⟨?_, rfl, rfl, rfl, rfl, rfl, rfl, rfl, rfl, rfl⟩
  intro sess
  cases sess with
  | none => simp [requireAuthAdmits]
  | some s =>
    cases s with
    | mk auth oid =>
      cases oid with
      | none => simp [requireAuthAdmits, organiserIdTruthy]
      | some n =>
        by_cases hn : n = 0
        · subst hn
          simp [requireAuthAdmits, organiserIdTruthy]
        · simp [requireAuthAdmits, organiserIdTruthy, hn]

/-- Witness for claim C8 (amended): a session with isAuthenticated true and
organiserId 1 passes the gate. -/
theorem claim8_witness :
    requireAuthAdmits (some (Session.mk true (some 1))) = true :=
  (claim8_requireAuth.1 (some (Session.mk true (some 1)))).mpr
    ⟨Session.mk true (some 1), rfl, rfl, 1, rfl, by decide⟩

/-- Claim C9: on every successful booking, both the inserted row and the
rendered confirmation carry the submitted attendee name with surrounding
whitespace removed, and they agree on that trimmed value. -/
theorem claim9_trimmed_name (db : DB) (eid : Nat) (req : BookingRequest)
    (newId : Nat) (bd : String) (name : String) (c : Confirmation) (db' : DB)
    (hn : req.attendee_name = some name)
    (h : createBooking db eid req newId bd = (.success c, db')) :
    c.attendee_name = jsTrim name ∧
    ∃ b, db'.bookings = db.bookings ++ [b] ∧
      b.attendee_name = jsTrim name ∧ b.booking_id = newId ∧
      b.attendee_name = c.attendee_name := by
  obtain ⟨name2, event, hn2, htrim, hev, hfull, hcon, hc, hdb⟩ :=
    createBooking_success_elim db eid req newId bd c db' h
  rw [hn] at hn2
  cases hn2
  subst hc
  subst hdb
  exact ⟨rfl, _, rfl, rfl, rfl, rfl⟩

/-- Witness for claim C9: booking with the name ' Frank ' persists and
confirms the trimmed name 'Frank'. -/
theorem claim9_witness :
    (Confirmation.mk "Frank" 1 0 40).attendee_name = jsTrim " Frank " ∧
    ∃ b, ({ sampleDb with bookings := sampleDb.bookings ++
        [⟨7, 3, "Frank", 1, 0, 40, "2025-07-01 00:00:00"⟩] } : DB).bookings =
      sampleDb.bookings ++ [b] ∧
      b.attendee_name = jsTrim " Frank " ∧ b.booking_id = 7 ∧
      b.attendee_name = (Confirmation.mk "Frank" 1 0 40).attendee_name :=
  claim9_trimmed_name sampleDb 3 ⟨some " Frank ", some "1", none⟩ 7
    "2025-07-01 00:00:00" " Frank " ⟨"Frank", 1, 0, 40⟩ _ rfl (by decide)

/-- Counterexample for claim C10: an organiser with id 3 exists in the
organisers table and has no configured password, yet a login request that
omits the password field entirely (undefined) succeeds: undefined ===
undefined holds, so a session IS established for this organiser. -/
theorem claim10_counterexample :
    (sampleDb3.organisers.find? (fun o => o.organiser_id == 3)).isSome =
      true ∧
    organiserPasswords ⟨some "pw-one", some "pw-two"⟩ 3 = none ∧
    loginPost ⟨some "pw-one", some "pw-two"⟩ sampleDb3 3 none =
      .loggedIn 3 "Priya Patel" := by
  decide

/-- Claim C10, amended: for an organiser id other than 1 and 2 that exists
in the organisers table, every submitted password string fails with the
incorrect-password outcome (a string is never strictly equal to the absent
expected password); but a request omitting the password field compares
undefined with undefined and establishes the session, so such an organiser
is not unconditionally locked out. -/
theorem claim10_login_no_config (env : EnvConfig) (db : DB) (id : Nat)
    (o : Organiser) (h1 : id ≠ 1) (h2 : id ≠ 2)
    (hfind : db.organisers.find? (fun x => x.organiser_id == id) = some o) :
    (∀ s, loginPost env db id (some s) = .incorrectPassword) ∧
    loginPost env db id none = .loggedIn o.organiser_id o.name := by
  have hpw : organiserPasswords env id = none := by
    simp [organiserPasswords, h1, h2]
  constructor
  · intro s
    unfold loginPost
    rw [hfind, hpw]
    rfl
  · unfold loginPost
    rw [hfind, hpw]
    rfl

/-- Witness for claim C10 (amended): organiser 3 of the extended seed
database fails login with the password 'guess' but logs in with the
password field absent. -/
theorem claim10_witness :
    loginPost ⟨some "pw-one", some "pw-two"⟩ sampleDb3 3 (some "guess") =
      .incorrectPassword ∧
    loginPost ⟨some "pw-one", some "pw-two"⟩ sampleDb3 3 none =
      .loggedIn 3 "Priya Patel" :=
  ⟨(claim10_login_no_config ⟨some "pw-one", some "pw-two"⟩ sampleDb3 3
      organiser3 (by decide) (by decide) (by decide)).1 "guess",
    (claim10_login_no_config ⟨some "pw-one", some "pw-two"⟩ sampleDb3 3
      organiser3 (by decide) (by decide) (by decide)).2⟩

end EventManager
